import Mathlib

/-
Verification of the AgentUI orchestration core (`agent_core/core/agent_manager.py`
and `agent_core/api/routes.py`) against its natural-language specification.

The Python code is shallowly embedded: dictionaries become insertion-ordered
association lists, Python strings become `List Char` (with `String` wrappers at
the boundary), exceptions become `Except String`, and every outbound network or
filesystem effect (HTTP calls to the backend, the LLM providers and the tool
services, file existence checks) is an explicit oracle argument recording the
outcome of that external call.  All definitions are computable and all
predicates decidable, so concrete runs evaluate by `decide` / `rfl`.
-/

namespace AgentUI

/-! ## Python string primitives

`List Char` models a Python `str`.  `pyStrip` models `str.strip()` for the
ASCII whitespace actually occurring in this repository's data (Lean's
`Char.isWhitespace` covers space, tab, CR, LF). -/

/-- Python `str.strip()`: drop leading and trailing whitespace. -/
def pyStrip (l : List Char) : List Char :=
  ((l.dropWhile Char.isWhitespace).reverse.dropWhile Char.isWhitespace).reverse

/-- `isPre needle hay` : `needle` occurs at the start of `hay`. -/
def isPre : List Char → List Char → Bool
  | [], _ => true
  | _ :: _, [] => false
  | a :: as, b :: bs => a == b && isPre as bs

/-- Leftmost index at which `needle` occurs in `hay` (`none` if it never
occurs).  This is the match position `re.search` reports for a literal
needle. -/
def findSub (needle : List Char) : List Char → Option Nat
  | [] => if isPre needle [] then some 0 else none
  | c :: t => if isPre needle (c :: t) then some 0 else (findSub needle t).map (· + 1)

/-- Leftmost index `≥ start` at which `needle` occurs in `hay`. -/
def findSubFrom (needle hay : List Char) (start : Nat) : Option Nat :=
  (findSub needle (hay.drop start)).map (· + start)

/-- Python slice `hay[i:j]`. -/
def slice (l : List Char) (i j : Nat) : List Char :=
  (l.drop i).take (j - i)

/-- Index of the last occurrence of character `c` in `l`. -/
def lastIdxOf (c : Char) (l : List Char) : Option Nat :=
  (findSub [c] l.reverse).map (fun i => l.length - 1 - i)

/-- Python `needle in hay` on strings. -/
def containsSub (needle hay : String) : Bool :=
  (findSub needle.data hay.data).isSome

/-! ## Extraction from LLM free-text responses

`AgentManager._extract_json_data` and `AgentManager._extract_latex_code` are
cascades of `re.search` calls.  Each regex used there is a literal-delimited
pattern, so its `re.search` semantics reduce to leftmost-occurrence searches:

* `re.search(r'\x60\x60\x60json\s*(.*?)\s*\x60\x60\x60', r, re.DOTALL)`:
  a match must start at an occurrence of the 7-character literal
  "\x60\x60\x60json" and end at a later occurrence of "\x60\x60\x60".
  If the leftmost "\x60\x60\x60json" has no "\x60\x60\x60" after its end then
  no later start position can have one either (a later "\x60\x60\x60json"
  itself contains "\x60\x60\x60", and the letters `json` contain no backtick,
  so a later occurrence lies at least 7 characters to the right of the
  leftmost one) — hence the whole search fails.  Otherwise the lazy group
  together with the surrounding greedy `\s*` makes the match close at the
  first "\x60\x60\x60" after the opener, and `group(1)` is the enclosed span
  with some leading/trailing whitespace removed; since the code then applies
  `.strip()`, the result equals the full enclosed span stripped.
* the untagged-fence pattern behaves identically with a 3-character opener.
* `re.search(r'\{.*\}', r, re.DOTALL)` (greedy): matches from the leftmost
  '\x7b' to the last '\x7d' after it, if any.
* `re.search(r'\\documentclass.*', r, re.DOTALL)`: matches from the leftmost
  occurrence of "\documentclass" to the end of the string. -/

/-- Tagged json fence rule of `_extract_json_data` (first `re.search`),
including the trailing `.group(1).strip()`. -/
def searchJsonFence (r : List Char) : Option (List Char) :=
  match findSub "```json".data r with
  | none => none
  | some i =>
    match findSubFrom "```".data r (i + 7) with
    | none => none
    | some j => some (pyStrip (slice r (i + 7) j))

/-- Tagged latex fence rule of `_extract_latex_code` (first `re.search`). -/
def searchLatexFence (r : List Char) : Option (List Char) :=
  match findSub "```latex".data r with
  | none => none
  | some i =>
    match findSubFrom "```".data r (i + 8) with
    | none => none
    | some j => some (pyStrip (slice r (i + 8) j))

/-- Untagged fence rule (second `re.search` of both extractors). -/
def searchAnyFence (r : List Char) : Option (List Char) :=
  match findSub "```".data r with
  | none => none
  | some i =>
    match findSubFrom "```".data r (i + 3) with
    | none => none
    | some j => some (pyStrip (slice r (i + 3) j))

/-- Brace-span rule of `_extract_json_data` (third `re.search`,
`r'\{.*\}'` with a greedy `.*`): from the first '\x7b' to the last '\x7d'
strictly after it. -/
def searchBraceSpan (r : List Char) : Option (List Char) :=
  match findSub ['\x7b'] r with
  | none => none
  | some i =>
    match lastIdxOf '\x7d' r with
    | none => none
    | some j => if i + 1 ≤ j then some (pyStrip (slice r i (j + 1))) else none

/-- `\documentclass` rule of `_extract_latex_code` (third `re.search`). -/
def searchDocumentclass (r : List Char) : Option (List Char) :=
  (findSub "\\documentclass".data r).map (fun i => pyStrip (l := r.drop i))

/-- `AgentManager._extract_json_data`. -/
def extract_json_data (response : List Char) : List Char :=
  match searchJsonFence response with
  | some g => g
  | none =>
    match searchAnyFence response with
    | some g => g
    | none =>
      match searchBraceSpan response with
      | some g => g
      | none => pyStrip response

/-- `AgentManager._extract_latex_code`. -/
def extract_latex_code (response : List Char) : List Char :=
  match searchLatexFence response with
  | some g => g
  | none =>
    match searchAnyFence response with
    | some g => g
    | none =>
      match searchDocumentclass response with
      | some g => g
      | none => pyStrip response

/-- Position (relative to the start, inclusive) of the brace closing the
balanced span that starts at the head of the list; the head is expected to be
'\x7b' and `depth`/`pos` start at 0. -/
def matchBrace : List Char → Nat → Nat → Option Nat
  | [], _, _ => none
  | c :: t, depth, pos =>
    if c = '\x7b' then matchBrace t (depth + 1) (pos + 1)
    else if c = '\x7d' then
      (if depth = 1 then some pos else matchBrace t (depth - 1) (pos + 1))
    else matchBrace t depth (pos + 1)

/-- Modelled from the spec's words (spec §4.3, extraction rule (c)): "the
first balanced `{...}` span" of the response — the shortest balanced brace
span starting at the first '\x7b'.  This is the spec-side reference the
implementation's `searchBraceSpan` is compared against; it is not part of the
source code. -/
def specFirstBalancedBraceSpan (r : List Char) : Option (List Char) :=
  match findSub ['\x7b'] r with
  | none => none
  | some i => (matchBrace (r.drop i) 0 0).map (fun k => slice r i (i + k + 1))

/-! ## LLM response adapters

The three `_call_*` provider adapters of `AgentManager`.  The outbound request
construction (message reshaping, model/temperature options) is network-facing;
the provider's reply is the input here, shaped exactly as each adapter reads
it.  Failures the adapters raise become `Except.error`. -/

/-- `response.choices[0].message` in `_call_openai_compatible`. -/
structure OpenAIMessage where
  content : String
  deriving DecidableEq

/-- One element of `response.choices`. -/
structure OpenAIChoice where
  message : OpenAIMessage
  deriving DecidableEq

/-- Chat-completion-family response shape. -/
structure OpenAIResponse where
  choices : List OpenAIChoice
  deriving DecidableEq

/-- Response handling of `AgentManager._call_openai_compatible`:
`response.choices[0].message.content.strip()`; an empty `choices` list raises
an IndexError. -/
def call_openai_compatible (response : OpenAIResponse) : Except String String :=
  match response.choices with
  | [] => .error "list index out of range"
  | c :: _ => .ok (String.mk (pyStrip c.message.content.data))

/-- One block of an Anthropic reply's `content` list: either a block carrying
a `text` attribute, or any other typed block, represented by its Python
`str(...)` rendering. -/
inductive AnthropicBlock where
  | text (t : String)
  | other (repr : String)
  deriving DecidableEq

/-- Structured-turn-family response shape. -/
structure AnthropicResponse where
  content : List AnthropicBlock
  deriving DecidableEq

/-- Response handling of `AgentManager._call_anthropic`: if `response.content`
is non-empty, a first block with a `text` attribute yields that text and any
other first block yields `str(block)`; only an absent/empty `content` raises
"Anthropic API响应格式异常". -/
def call_anthropic (response : AnthropicResponse) : Except String String :=
  match response.content with
  | [] => .error "Anthropic API响应格式异常"
  | b :: _ =>
    match b with
    | .text t => .ok t
    | .other r => .ok r

/-- One element of a Gemini candidate's `content.parts`. -/
structure GeminiPart where
  text : String
  deriving DecidableEq

/-- `candidate.content` of a Gemini reply. -/
structure GeminiContent where
  parts : List GeminiPart
  deriving DecidableEq

/-- One element of `response.candidates`. -/
structure GeminiCandidate where
  content : GeminiContent
  deriving DecidableEq

/-- Generative-turn-family response shape. -/
structure GeminiResponse where
  candidates : List GeminiCandidate
  deriving DecidableEq

/-- Response handling of `AgentManager._call_gemini`:
`response.candidates[0].content.parts[0].text`; empty lists raise an
IndexError. -/
def call_gemini (response : GeminiResponse) : Except String String :=
  match response.candidates with
  | [] => .error "list index out of range"
  | c :: _ =>
    match c.content.parts with
    | [] => .error "list index out of range"
    | p :: _ => .ok p.text

/-! ## Provider configuration resolution

`AgentManager._load_llm_config` / `_fallback_to_local_config` and the client
constructors `_init_*_client`.  Python dicts are insertion-ordered association
lists; `llm_clients` is tracked by its ordered key list (the client handles
themselves are opaque).  Whether the `anthropic` / `google.genai` libraries
imported successfully is part of the environment. -/

/-- One provider's configuration entry (the dict fields the core reads). -/
structure ProviderConfig where
  api_key : String := ""
  model : String := ""
  base_url : Option String := none
  provider : Option String := none
  deriving DecidableEq

/-- JSON body returned by `GET {BACKEND_URL}/api/config/llm`. -/
structure BackendConfigData where
  current_provider : Option String := none
  default_llm_provider : Option String := none
  provider_configs : Option (List (String × ProviderConfig)) := none
  llm_providers : Option (List (String × ProviderConfig)) := none
  deriving DecidableEq

/-- `config_data.get('current_provider', config_data.get('default_llm_provider', 'anthropic'))`. -/
def defaultProviderOf (cd : BackendConfigData) : String :=
  cd.current_provider.getD (cd.default_llm_provider.getD "anthropic")

/-- `config_data.get('provider_configs', config_data.get('llm_providers', {}))`. -/
def providersOf (cd : BackendConfigData) : List (String × ProviderConfig) :=
  cd.provider_configs.getD (cd.llm_providers.getD [])

/-- The local `settings` values read by `_fallback_to_local_config`. -/
structure LocalSettings where
  DEFAULT_LLM_PROVIDER : String
  llm_providers : List (String × ProviderConfig)
  deriving DecidableEq

/-- Which optional provider SDKs imported successfully
(`ANTHROPIC_AVAILABLE` / `GEMINI_AVAILABLE`). -/
structure LibEnv where
  anthropicAvailable : Bool
  geminiAvailable : Bool
  deriving DecidableEq

/-- Python dict assignment on the key set: an existing key keeps its position,
a new key is appended. -/
def dinsert (k : String) (d : List String) : List String :=
  if d.contains k then d else d ++ [k]

/-- `AgentManager._init_anthropic_client` (key-set effect on `llm_clients`):
registers "anthropic" when the SDK imported and the api key is non-empty. -/
def init_anthropic_client (env : LibEnv) (config : ProviderConfig) (clients : List String) : List String :=
  if env.anthropicAvailable && config.api_key != "" then dinsert "anthropic" clients else clients

/-- `AgentManager._init_openai_client`: registers under "openai" and "gpt" for
an openai.com base URL, under "deepseek" for a deepseek.com base URL, and
under `config.get("provider", "openai")` otherwise. -/
def init_openai_client (config : ProviderConfig) (clients : List String) : List String :=
  let base_url := config.base_url.getD "https://api.openai.com/v1"
  if config.api_key != "" then
    if containsSub "openai.com" base_url then dinsert "gpt" (dinsert "openai" clients)
    else if containsSub "deepseek.com" base_url then dinsert "deepseek" clients
    else dinsert (config.provider.getD "openai") clients
  else clients

/-- `AgentManager._init_deepseek_client`. -/
def init_deepseek_client (config : ProviderConfig) (clients : List String) : List String :=
  if config.api_key != "" then dinsert "deepseek" clients else clients

/-- `AgentManager._init_gemini_client`. -/
def init_gemini_client (env : LibEnv) (config : ProviderConfig) (clients : List String) : List String :=
  if env.geminiAvailable && config.api_key != "" then dinsert "gemini" clients else clients

/-- The provider loop shared verbatim by `_load_llm_config` and
`_fallback_to_local_config`: for each configured provider name with a truthy
api key, construct the matching client.  Provider names other than the four
listed ones get no client here. -/
def initClientsForProviders (env : LibEnv) (providers : List (String × ProviderConfig))
    (clients : List String) : List String :=
  providers.foldl (fun cs p =>
    if p.1 == "anthropic" && p.2.api_key != "" then init_anthropic_client env p.2 cs
    else if (p.1 == "gpt" || p.1 == "openai") && p.2.api_key != "" then init_openai_client p.2 cs
    else if p.1 == "gemini" && p.2.api_key != "" then init_gemini_client env p.2 cs
    else if p.1 == "deepseek" && p.2.api_key != "" then init_deepseek_client p.2 cs
    else cs) clients

/-- Per-provider entry of the rebuilt `llm_status['providers']` dict. -/
structure ProviderStatusEntry where
  configured : Bool
  model : String
  api_key_set : Bool
  deriving DecidableEq

/-- The `llm_status['providers']` dict built by both loaders. -/
def statusEntriesOf (providers : List (String × ProviderConfig)) :
    List (String × ProviderStatusEntry) :=
  providers.map (fun p => (p.1, ⟨p.2.api_key != "", p.2.model, p.2.api_key != ""⟩))

/-- The `llm_status` attribute.  The constructor-time dict has no `source`
key and every read uses `.get('source', 'unknown')`, so the initial value is
modelled with source "unknown". -/
structure LLMStatus where
  source : String
  default_provider : String
  providers : List (String × ProviderStatusEntry)
  deriving DecidableEq

/-! ## Task data model

`process_task` receives `task_data = {"tool_type": ..., "parameters": {...}}`.
The parameter dict is modelled with one optional field per key the code reads;
`Option.getD` mirrors each `parameters.get(key, default)` site. -/

/-- The `parameters` dict of a task (only the keys the core reads). -/
structure TaskParams where
  content : Option String := none
  title : Option String := none
  theme : Option String := none
  language : Option String := none
  input_type : Option String := none
  prompt : Option String := none
  use_ucas_style : Option Bool := none
  uploaded_file_path : Option String := none
  main_tex_filename : Option String := none
  user_requirement : Option String := none
  chart_type : Option String := none
  deriving DecidableEq

/-- The `task_data` dict of a submitted task. -/
structure TaskData where
  tool_type : Option String := none
  parameters : TaskParams := {}
  deriving DecidableEq

/-- Result dict of the PPT flows (`_generate_ppt_with_llm` /
`_handle_latex_project`); absent dict keys are `none`. -/
structure PptGenResult where
  status : String
  latex_content : String
  title : String
  theme : String
  input_type : String
  pdf_path : Option String := none
  success : Option Bool := none
  use_ucas_style : Option Bool := none
  pdf_compilation_error : Option String := none
  conversion_type : Option String := none
  main_file : Option String := none
  deriving DecidableEq

/-- Result dict of `_generate_chart_data_with_llm`. -/
structure ChartGenResult where
  status : String
  generated_data : String
  chart_type : String
  title : String
  user_requirement : String
  deriving DecidableEq

/-- A value stored in a task record's `result` field. -/
inductive TaskResult where
  | pptResult (r : PptGenResult)
  | chartResult (r : ChartGenResult)
  | mcpResult (payload : String)
  deriving DecidableEq

/-- The record a task id maps to in `AgentManager.tasks`. -/
structure TaskRecord where
  status : String
  data : TaskData
  result : Option TaskResult
  error : Option String
  deriving DecidableEq

/-- The mutable `AgentManager` attributes the verified operations touch. -/
structure AgentState where
  tasks : List (String × TaskRecord)
  llm_clients : List String
  llm_config : Option ProviderConfig
  current_provider : Option String
  llm_status : LLMStatus
  mcp_clients : List (String × String)
  running : Bool
  deriving DecidableEq

/-- Active-provider selection shared verbatim by both loaders: prefer the
default provider when it is both a configured provider and a constructed
client; otherwise scan `llm_clients` in insertion order for a key present in
the provider set; otherwise leave `current_provider` / `llm_config`
untouched. -/
def selectProvider (default_provider : String) (providers : List (String × ProviderConfig))
    (clients : List String) (current : Option String) (config : Option ProviderConfig) :
    Option String × Option ProviderConfig :=
  if (providers.lookup default_provider).isSome && clients.contains default_provider then
    (some default_provider, providers.lookup default_provider)
  else
    match clients.find? (fun c => (providers.lookup c).isSome) with
    | some p => (some p, providers.lookup p)
    | none => (current, config)

/-- Outcome of `requests.get(f"{BACKEND_URL}/api/config/llm", timeout=10)`:
either a reply (any status code, with parsed JSON body) or a raised
`requests.exceptions.RequestException` (connection error, timeout, ...). -/
inductive FetchOutcome where
  | response (status_code : Nat) (body : BackendConfigData)
  | requestError (msg : String)
  deriving DecidableEq

/-- `AgentManager._fallback_to_local_config`.  The function's own
`except Exception` (returning `False`) is unreachable here because the body
is pure dict processing, so the fallback always returns `True`. -/
def fallback_to_local_config (env : LibEnv) (local_settings : LocalSettings)
    (s : AgentState) : AgentState × Option Bool :=
  let providers := local_settings.llm_providers
  let clients := initClientsForProviders env providers s.llm_clients
  let status : LLMStatus := ⟨"local", local_settings.DEFAULT_LLM_PROVIDER, statusEntriesOf providers⟩
  let sel := selectProvider local_settings.DEFAULT_LLM_PROVIDER providers clients
    s.current_provider s.llm_config
  ({ s with llm_status := status, llm_clients := clients,
            current_provider := sel.1, llm_config := sel.2 }, some true)

/-- `AgentManager._load_llm_config`.  A raised `RequestException` is caught
and routed to the local fallback.  A reply with `status_code == 200` is
processed.  Any other status code matches no branch: the `try` body ends
without executing a `return`, so the method returns `None` with the state
untouched — in particular it does not fall back. -/
def load_llm_config (env : LibEnv) (local_settings : LocalSettings) (fetch : FetchOutcome)
    (s : AgentState) : AgentState × Option Bool :=
  match fetch with
  | .requestError _ => fallback_to_local_config env local_settings s
  | .response status_code body =>
    if status_code = 200 then
      let providers := providersOf body
      let clients := initClientsForProviders env providers s.llm_clients
      let status : LLMStatus := ⟨"backend", defaultProviderOf body, statusEntriesOf providers⟩
      let sel := selectProvider (defaultProviderOf body) providers clients
        s.current_provider s.llm_config
      ({ s with llm_status := status, llm_clients := clients,
                current_provider := sel.1, llm_config := sel.2 }, some true)
    else
      (s, none)

/-! ## Task registry operations and tool flows

`AgentManager.process_task`, `_process_with_llm`, the PPT / chart flows and
`cancel_task` / `get_task_status`.  The task dict is an insertion-ordered
association list with unique keys: assignment replaces the record in place
for an existing id and appends for a new one.  Outcomes of external HTTP
calls are supplied as oracles; each oracle's error string is the message of
the exception the corresponding `except` clause converts the failure into. -/

/-- Python dict assignment `self.tasks[id] = rec`. -/
def dsetTask : List (String × TaskRecord) → String → TaskRecord → List (String × TaskRecord)
  | [], id, rec => [(id, rec)]
  | kv :: t, id, rec => if kv.1 == id then (id, rec) :: t else kv :: dsetTask t id rec

/-- In-place mutation of one field of `self.tasks[id]` (dict keys are unique,
so updating the first occurrence models it). -/
def updateTask : List (String × TaskRecord) → String → (TaskRecord → TaskRecord) →
    List (String × TaskRecord)
  | [], _, _ => []
  | kv :: t, id, f => if kv.1 == id then (kv.1, f kv.2) :: t else kv :: updateTask t id f

/-- Parsed JSON reply of `_call_ppt_service` (the flow reads
`result.get("pdf_path")` and `result.get("success", True)`). -/
structure PptServiceResp where
  pdf_path : Option String := none
  success : Option Bool := none
  deriving DecidableEq

/-- Parsed JSON reply of `POST {ppt_generator}/extract_tex_content`. -/
structure ExtractTexResp where
  success : Bool
  content : String := ""
  error : Option String := none
  deriving DecidableEq

/-- Parsed JSON reply of `POST {ppt_generator}/generate_beamer_from_project`. -/
structure ProjectCompileResp where
  success : Bool
  pdf_path : Option String := none
  error : Option String := none
  deriving DecidableEq

/-- Equality on modelled call outcomes is decidable. -/
instance instDecEqExcept {ε α : Type} [DecidableEq ε] [DecidableEq α] :
    DecidableEq (Except ε α) := fun a b =>
  match a, b with
  | .ok x, .ok y =>
    match decEq x y with
    | isTrue h => isTrue (by rw [h])
    | isFalse h => isFalse (by intro hc; cases hc; exact h rfl)
  | .error x, .error y =>
    match decEq x y with
    | isTrue h => isTrue (by rw [h])
    | isFalse h => isFalse (by intro hc; cases hc; exact h rfl)
  | .ok _, .error _ => isFalse (by intro hc; cases hc)
  | .error _, .ok _ => isFalse (by intro hc; cases hc)

/-- Outcomes of the external calls a single task execution can make.  Error
strings carry the message after the per-call `except` conversion (e.g. a
connection failure to the PPT service appears as
"无法连接到PPT生成器服务: ..."). -/
structure ExtCallOutcomes where
  llm : Except String String := .error ""
  pptService : Except String PptServiceResp := .error ""
  extractTex : Except String ExtractTexResp := .error ""
  projectCompile : Except String ProjectCompileResp := .error ""
  mcp : Except String String := .error ""
  fileExists : Bool := true
  ucasResources : Bool := true
  deriving DecidableEq

/-- The guard `self.current_provider and self.current_provider in
self.llm_clients` used by `_call_llm` and repeated in the generation flows. -/
def providerReady (s : AgentState) : Bool :=
  match s.current_provider with
  | none => false
  | some p => s.llm_clients.contains p

/-- `AgentManager._call_llm`: raises when no provider is configured, raises
for a provider name outside the known adapter families, and otherwise
performs the provider call, whose outcome (the normalized content string, or
the raised error's message) is the oracle `o`. -/
def call_llm (s : AgentState) (o : Except String String) : Except String String :=
  if !providerReady s then
    .error "LLM服务未配置或初始化失败。请在系统设置中配置LLM服务，或检查后端服务是否正常运行。"
  else
    match s.current_provider with
    | none => .error "LLM服务未配置或初始化失败。请在系统设置中配置LLM服务，或检查后端服务是否正常运行。"
    | some provider =>
      if ["openai", "gpt", "azure", "ollama", "deepseek", "anthropic", "gemini"].contains provider
      then o
      else .error ("不支持的LLM提供商: " ++ provider)

/-- `AgentManager._call_ppt_service`: raises "PPT生成器服务不可用" when the
`ppt_generator` service is not registered; otherwise the HTTP exchange
(including the UCAS resource zip packaging, which only changes the uploaded
archive) has the oracle's outcome. -/
def call_ppt_service (s : AgentState) (o : ExtCallOutcomes) : Except String PptServiceResp :=
  match s.mcp_clients.lookup "ppt_generator" with
  | none => .error "PPT生成器服务不可用"
  | some _ => o.pptService

/-- The `service_mapping` table of `_call_mcp_service`. -/
def service_mapping : List (String × String) :=
  [("ppt", "ppt_generator"), ("ppt_generator", "ppt_generator"),
   ("chart", "chart_generator"), ("chart_generator", "chart_generator"),
   ("scheduler", "schedule_reminder"),
   ("api-docs", "api_doc_generator"), ("api_doc_generator", "api_doc_generator")]

/-- `AgentManager._call_mcp_service`: unknown tool types and unregistered
services raise `ValueError`; otherwise the JSON exchange with the downstream
service has the oracle's outcome (its error string carries the message of the
converted network/HTTP exception). -/
def call_mcp_service (s : AgentState) (o : ExtCallOutcomes) (tool_type : String) :
    Except String String :=
  match service_mapping.lookup tool_type with
  | none => .error ("不支持的工具类型: " ++ tool_type)
  | some service_name =>
    match s.mcp_clients.lookup service_name with
    | none => .error ("不支持的工具类型: " ++ tool_type)
    | some _ => o.mcp

/-- `AgentManager._generate_chart_data_with_llm`.  The empty-requirement
check sits before the `try`, so its message is not wrapped; failures inside
the `try` are re-raised as "生成图表数据失败: {e}". -/
def generate_chart_data_with_llm (s : AgentState) (o : ExtCallOutcomes) (p : TaskParams) :
    Except String (Option TaskResult) :=
  let user_requirement := p.user_requirement.getD ""
  let chart_type := p.chart_type.getD "bar"
  let title := p.title.getD ""
  if user_requirement == "" then .error "用户需求描述不能为空"
  else if !providerReady s then
    .error ("生成图表数据失败: " ++
      "LLM服务未配置或初始化失败。请在系统设置中配置LLM服务，或检查后端服务是否正常运行。")
  else
    match call_llm s o.llm with
    | .error e => .error ("生成图表数据失败: " ++ e)
    | .ok response =>
      let generated_content := String.mk (pyStrip response.data)
      let chart_data := String.mk (extract_json_data generated_content.data)
      .ok (some (.chartResult ⟨"success", chart_data, chart_type, title, user_requirement⟩))

/-- `AgentManager._handle_latex_project`.  Every failure propagates through
the outer `except Exception` as "处理LaTeX项目失败: {e}".  In the non-UCAS
mode a compile reply with `success` false raises
"编译Beamer PDF失败: {error}", which the sibling generic `except` re-wraps
once more before the outer wrap.  In both UCAS sub-branches (merged resources
or fallback) the service reply is assigned but the `try` body ends without a
`return`, so a successful UCAS compilation makes the method return `None`.
The upload-path resolution is filesystem-specific and elided: `fileExists`
is the oracle for the resolved path's existence check. -/
def handle_latex_project (s : AgentState) (o : ExtCallOutcomes) (p : TaskParams) :
    Except String (Option TaskResult) :=
  let uploaded_file_path := p.uploaded_file_path.getD ""
  let main_tex_filename := p.main_tex_filename.getD "main.tex"
  let title := p.title.getD "演示文稿"
  let theme := p.theme.getD "academic"
  if uploaded_file_path == "" then .error ("处理LaTeX项目失败: " ++ "未提供上传的文件路径")
  else
    match s.mcp_clients.lookup "ppt_generator" with
    | none => .error ("处理LaTeX项目失败: " ++ "PPT生成器服务不可用")
    | some _ =>
      if !o.fileExists then .error ("处理LaTeX项目失败: " ++ "上传的文件不存在")
      else
        match o.extractTex with
        | .error e => .error ("处理LaTeX项目失败: " ++ e)
        | .ok ex =>
          if !ex.success then
            .error ("处理LaTeX项目失败: " ++ "提取LaTeX内容失败: " ++ ex.error.getD "未知错误")
          else if pyStrip ex.content.data == [] then
            .error ("处理LaTeX项目失败: " ++ "提取的LaTeX内容为空")
          else if !providerReady s then
            .error ("处理LaTeX项目失败: " ++
              "LLM服务未配置或初始化失败。请在系统设置中配置LLM服务，或检查后端服务是否正常运行。")
          else
            match call_llm s o.llm with
            | .error e => .error ("处理LaTeX项目失败: " ++ "大模型生成Beamer代码失败: " ++ e)
            | .ok response =>
              let beamer_content := String.mk (pyStrip response.data)
              let beamer_content := String.mk (extract_latex_code beamer_content.data)
              let use_ucas_style := p.use_ucas_style.getD false
              if use_ucas_style then
                match o.projectCompile with
                | .error e => .error ("处理LaTeX项目失败: " ++ e)
                | .ok _ => .ok none
              else
                match o.projectCompile with
                | .error e => .error ("处理LaTeX项目失败: " ++ e)
                | .ok result =>
                  if !result.success then
                    .error ("处理LaTeX项目失败: " ++ "编译Beamer PDF失败: " ++
                      "编译Beamer PDF失败: " ++ result.error.getD "未知错误")
                  else
                    .ok (some (.pptResult
                      { status := "success", latex_content := beamer_content,
                        pdf_path := result.pdf_path, title := title,
                        conversion_type := some "latex_to_beamer",
                        main_file := some main_tex_filename, success := some true,
                        theme := theme, input_type := "latex_project",
                        use_ucas_style := some use_ucas_style }))

/-- `AgentManager._generate_ppt_with_llm`.  Prompt construction feeds the
external LLM call and does not affect control flow.  A compile failure after
successful generation is caught and still yields a success dict carrying
`latex_content` plus `pdf_compilation_error`; failures before that are
re-raised as "生成PPT失败: {e}". -/
def generate_ppt_with_llm (s : AgentState) (o : ExtCallOutcomes) (p : TaskParams) :
    Except String (Option TaskResult) :=
  let title := p.title.getD "演示文稿"
  let theme := p.theme.getD "academic"
  let input_type := p.input_type.getD "text_description"
  if input_type == "latex_project" then handle_latex_project s o p
  else if !providerReady s then
    .error ("生成PPT失败: " ++
      "LLM服务未配置或初始化失败。请在系统设置中配置LLM服务，或检查后端服务是否正常运行。")
  else
    match call_llm s o.llm with
    | .error e => .error ("生成PPT失败: " ++ e)
    | .ok response =>
      let latex_content := String.mk (pyStrip response.data)
      let latex_content := String.mk (extract_latex_code latex_content.data)
      let use_ucas_style := p.use_ucas_style.getD false
      match call_ppt_service s o with
      | .ok ppt_result =>
        .ok (some (.pptResult
          { status := "success", latex_content := latex_content, title := title,
            theme := theme, input_type := input_type, pdf_path := ppt_result.pdf_path,
            success := some (ppt_result.success.getD true),
            use_ucas_style := some use_ucas_style }))
      | .error e =>
        .ok (some (.pptResult
          { status := "success", latex_content := latex_content, title := title,
            theme := theme, input_type := input_type,
            pdf_compilation_error := some e }))

/-- `AgentManager._process_with_llm`: the tool-type dispatch table. -/
def process_with_llm (s : AgentState) (o : ExtCallOutcomes) (tool_type : String)
    (parameters : TaskParams) : Except String (Option TaskResult) :=
  if tool_type == "ppt" || tool_type == "ppt_generator" then
    generate_ppt_with_llm s o parameters
  else if tool_type == "chart" || tool_type == "chart_generator" then
    (call_mcp_service s o tool_type).map (fun j => some (.mcpResult j))
  else if tool_type == "chart_data_generator" then
    generate_chart_data_with_llm s o parameters
  else if tool_type == "scheduler" then
    (call_mcp_service s o tool_type).map (fun j => some (.mcpResult j))
  else if tool_type == "api-docs" || tool_type == "api_doc_generator" then
    (call_mcp_service s o tool_type).map (fun j => some (.mcpResult j))
  else .error ("不支持的工具类型: " ++ tool_type)

/-- The dict `process_task` returns to its caller. -/
structure ProcessResponse where
  status : String
  message : String
  result : Option TaskResult := none
  deriving DecidableEq

/-- `AgentManager.process_task`: unconditionally (re)creates the record at
status "running", runs the tool flow, then overwrites the record with
"completed" plus the flow's return value, or with "failed" plus the error
message.  Backend notifications (`_update_backend_task`) swallow their own
failures and never touch the in-memory record. -/
def process_task (s : AgentState) (o : ExtCallOutcomes) (task_id : String) (task_data : TaskData) :
    AgentState × ProcessResponse :=
  let tasks1 := dsetTask s.tasks task_id ⟨"running", task_data, none, none⟩
  let s1 := { s with tasks := tasks1 }
  match process_with_llm s1 o (task_data.tool_type.getD "") task_data.parameters with
  | .ok result =>
    let tasks2 := updateTask tasks1 task_id
      (fun r => { r with status := "completed", result := result })
    ({ s1 with tasks := tasks2 }, ⟨"success", "任务处理完成", result⟩)
  | .error e =>
    let tasks2 := updateTask tasks1 task_id
      (fun r => { r with status := "failed", error := some e })
    ({ s1 with tasks := tasks2 }, ⟨"error", "任务处理失败: " ++ e, none⟩)

/-- The dict `cancel_task` returns. -/
structure CancelResult where
  status : String
  message : String
  deriving DecidableEq

/-- `AgentManager.cancel_task`: a present id gets its status flag set to
"cancelled" (and the backend notified; that notification swallows its own
failures); an absent id returns `{"status": "error", "message": "任务不存在"}`.
Neither branch can raise, so the method's own `except`/re-raise is dead. -/
def cancel_task (s : AgentState) (task_id : String) : AgentState × CancelResult :=
  if s.tasks.any (fun kv => kv.1 == task_id) then
    ({ s with tasks := updateTask s.tasks task_id (fun r => { r with status := "cancelled" }) },
     ⟨"success", "任务已取消"⟩)
  else
    (s, ⟨"error", "任务不存在"⟩)

/-- Return value of `get_task_status`: the stored record, or the sentinel
dict `{"status": "not_found", "message": "任务不存在"}`. -/
inductive TaskStatusView where
  | record (r : TaskRecord)
  | sentinel (status : String) (message : String)
  deriving DecidableEq

/-- `AgentManager.get_task_status`. -/
def get_task_status (s : AgentState) (task_id : String) : TaskStatusView :=
  match s.tasks.find? (fun kv => kv.1 == task_id) with
  | some kv => .record kv.2
  | none => .sentinel "not_found" "任务不存在"

/-! ## Observers and concrete fixtures -/

/-- Status field of the record stored for `id` (if any). -/
def statusOf (s : AgentState) (id : String) : Option String :=
  (s.tasks.find? (fun kv => kv.1 == id)).map (fun kv => kv.2.status)

/-- Result field of the record stored for `id` (if any). -/
def resultOf (s : AgentState) (id : String) : Option (Option TaskResult) :=
  (s.tasks.find? (fun kv => kv.1 == id)).map (fun kv => kv.2.result)

/-- Error field of the record stored for `id` (if any). -/
def errorOf (s : AgentState) (id : String) : Option (Option String) :=
  (s.tasks.find? (fun kv => kv.1 == id)).map (fun kv => kv.2.error)

/-- `AgentManager.__init__` state: empty registries, no provider.  The
constructor's `llm_status` dict lacks a `source` key and all reads use
`.get('source', 'unknown')`, hence source "unknown" here. -/
def initialAgentState : AgentState :=
  { tasks := [], llm_clients := [], llm_config := none, current_provider := none,
    llm_status := ⟨"unknown", "", []⟩, mcp_clients := [], running := false }

/-- A manager state after a successful initialization with one OpenAI
provider and the four tool services registered. -/
def readyState : AgentState :=
  { tasks := [], llm_clients := ["openai"],
    llm_config := some { api_key := "k", model := "gpt-4" },
    current_provider := some "openai",
    llm_status := ⟨"local", "openai", [("openai", ⟨true, "gpt-4", true⟩)]⟩,
    mcp_clients := [("ppt_generator", "http://localhost:8001"),
                    ("chart_generator", "http://localhost:8002"),
                    ("schedule_reminder", "http://localhost:8003"),
                    ("api_doc_generator", "http://localhost:8004")],
    running := true }

/-- Local settings with a configured anthropic provider. -/
def localA : LocalSettings :=
  ⟨"anthropic", [("anthropic", { api_key := "k", model := "claude-3-sonnet" })]⟩

/-- Both optional provider SDKs importable. -/
def bothLibs : LibEnv := ⟨true, true⟩

/-- Environment in which the anthropic SDK failed to import (so no anthropic
client can be constructed) but the Gemini SDK is present. -/
def geminiOnlyEnv : LibEnv := ⟨false, true⟩

/-- Backend config body whose declared default provider (anthropic) cannot
get a client in `geminiOnlyEnv`, while the second provider (gemini) can. -/
def c5Body : BackendConfigData :=
  { current_provider := some "anthropic",
    provider_configs := some
      [("anthropic", { api_key := "ka", model := "claude-3-sonnet" }),
       ("gemini", { api_key := "kg", model := "gemini-1.5-pro" })] }

/-- Outcomes for a successful chart-data task (the LLM answers plain text
with no fence and no braces). -/
def chartOutcomes : ExtCallOutcomes := { llm := .ok "sales data" }

/-- A `chart_data_generator` task submission. -/
def chartTask : TaskData :=
  { tool_type := some "chart_data_generator",
    parameters := { user_requirement := some "quarterly sales",
                    chart_type := some "bar", title := some "Q" } }

/-- State after running `chartTask` to successful completion as task "t1". -/
def c1State1 : AgentState := (process_task readyState chartOutcomes "t1" chartTask).1

/-- Outcomes for a LaTeX-project task in which every external call succeeds
(extraction, LLM authoring, and the project compilation). -/
def ucasOutcomes : ExtCallOutcomes :=
  { llm := .ok "\\documentclass beamer body",
    extractTex := .ok ⟨true, "\\documentclass article src", none⟩,
    projectCompile := .ok ⟨true, some "/output/t2.pdf", none⟩ }

/-- A `ppt` task converting an uploaded LaTeX project with the UCAS style
flag set. -/
def ucasTask : TaskData :=
  { tool_type := some "ppt",
    parameters := { input_type := some "latex_project", use_ucas_style := some true,
                    uploaded_file_path := some "./uploads/proj.zip" } }

/-- State after running `ucasTask` as task "t2" with all calls succeeding. -/
def c8State : AgentState := (process_task readyState ucasOutcomes "t2" ucasTask).1

/-- Outcomes for a free-text PPT task whose LaTeX generation succeeds and
whose PDF compilation call fails. -/
def compileFailOutcomes : ExtCallOutcomes :=
  { llm := .ok "```latex\nBODY\n```",
    pptService := .error "无法连接到PPT生成器服务: conn" }

/-- Outcomes for a LaTeX-project task whose extraction and authoring succeed
but whose compile call fails with message `e`. -/
def projectFailOutcomes (e : String) : ExtCallOutcomes :=
  { llm := .ok "BEAMER \\documentclass x",
    extractTex := .ok ⟨true, "SRC", none⟩,
    projectCompile := .error e }

/-- Parameters of a non-UCAS LaTeX-project conversion. -/
def latexProjParams : TaskParams :=
  { input_type := some "latex_project", uploaded_file_path := some "./uploads/proj.zip" }

/-! ## Shared helper lemmas -/

/-- A prefix of a longer needle is itself a prefix. -/
theorem isPre_append_left (x y l : List Char) (h : isPre (x ++ y) l = true) :
    isPre x l = true := by
  induction x generalizing l with
  | nil => rfl
  | cons a as ih =>
    cases l with
    | nil => simp [isPre] at h
    | cons b bs =>
      simp only [List.cons_append, isPre, Bool.and_eq_true] at h ⊢
      exact ⟨h.1, ih bs h.2⟩

/-- If a needle never occurs, no extension of it occurs either. -/
theorem findSub_append_none (x y r : List Char) (h : findSub x r = none) :
    findSub (x ++ y) r = none := by
  induction r with
  | nil =>
    cases x with
    | nil => simp [findSub, isPre] at h
    | cons a as => simp [findSub, isPre]
  | cons c t ih =>
    simp only [findSub] at h ⊢
    by_cases hp : isPre x (c :: t) = true
    · simp [hp] at h
    · rw [if_neg hp] at h
      have h2 : findSub x t = none := Option.map_eq_none'.mp h
      have hpp : ¬ isPre (x ++ y) (c :: t) = true := by
        intro hq
        exact hp (isPre_append_left x y _ hq)
      rw [if_neg hpp, ih h2, Option.map_none']

/-- Python's `id in tasks` test agrees with `find?` on the key predicate. -/
theorem any_beq_eq_find_isSome (l : List (String × TaskRecord)) (id : String) :
    l.any (fun kv => kv.1 == id) = (l.find? (fun kv => kv.1 == id)).isSome := by
  induction l with
  | nil => rfl
  | cons kv t ih =>
    cases h : (kv.1 == id) <;> simp [List.any_cons, List.find?_cons, h, ih]

/-- After a dict assignment, lookup of the assigned key finds the new record. -/
theorem find_dsetTask_self (l : List (String × TaskRecord)) (id : String) (rec : TaskRecord) :
    (dsetTask l id rec).find? (fun kv => kv.1 == id) = some (id, rec) := by
  induction l with
  | nil => simp [dsetTask, List.find?]
  | cons kv t ih =>
    by_cases h : (kv.1 == id) = true
    · simp [dsetTask, h, List.find?_cons]
    · simp only [dsetTask, if_neg h]
      simp [List.find?_cons, h, ih]

/-- After an in-place field update of `tasks[id]`, lookup of `id` sees the
updated record. -/
theorem find_updateTask_self (l : List (String × TaskRecord)) (id : String)
    (f : TaskRecord → TaskRecord) :
    (updateTask l id f).find? (fun kv => kv.1 == id) =
      (l.find? (fun kv => kv.1 == id)).map (fun kv => (kv.1, f kv.2)) := by
  induction l with
  | nil => rfl
  | cons kv t ih =>
    by_cases h : (kv.1 == id) = true
    · simp [updateTask, h, List.find?_cons]
    · simp only [updateTask, if_neg h]
      simp [List.find?_cons, h, ih]

/-- An in-place field update of `tasks[id]` leaves every other key's lookup
unchanged. -/
theorem find_updateTask_other (l : List (String × TaskRecord)) (id j : String)
    (f : TaskRecord → TaskRecord) (h : (j == id) = false) :
    (updateTask l id f).find? (fun kv => kv.1 == j) = l.find? (fun kv => kv.1 == j) := by
  induction l with
  | nil => rfl
  | cons kv t ih =>
    by_cases hk : (kv.1 == id) = true
    · have hkj : (kv.1 == j) = false := by
        have hke : kv.1 = id := eq_of_beq hk
        subst hke
        exact beq_eq_false_iff_ne.mpr fun hc => (beq_eq_false_iff_ne.mp h) hc.symm
      simp [updateTask, hk, List.find?_cons, hkj]
    · by_cases hj : (kv.1 == j) = true <;>
        simp [updateTask, hk, List.find?_cons, hj, ih]

/-! ## Claim C3 -/

/-- C3: the unified LLM invocation normalizes all three provider families to
the same plain-string return type — a chat-completion response whose first
choice's message content is "OK", a structured-turn response whose first
content block's text is "OK", and a generative-turn response whose first
candidate's first part text is "OK" all yield the return value "OK". -/
theorem C3_adapters_normalize_ok :
    call_openai_compatible ⟨[⟨⟨"OK"⟩⟩]⟩ = .ok "OK" ∧
    call_anthropic ⟨[AnthropicBlock.text "OK"]⟩ = .ok "OK" ∧
    call_gemini ⟨[⟨⟨[⟨"OK"⟩]⟩⟩]⟩ = .ok "OK" := by
  refine ⟨by decide, rfl, rfl⟩

/-! ## Claim C6 -/

/-- C6 (counterexample): the claim says a first content block with no "text"
variant makes the structured-turn adapter fail with a MalformedResponse-class
error, but `_call_anthropic` only raises when the `content` list is empty; a
non-text first block is converted with `str(...)` and returned as a success. -/
theorem C6_counterexample_nontext_block_returned :
    call_anthropic ⟨[AnthropicBlock.other "ToolUseBlock(id=x)"]⟩ = .ok "ToolUseBlock(id=x)" ∧
    ¬ call_anthropic ⟨[AnthropicBlock.other "ToolUseBlock(id=x)"]⟩ =
        .error "Anthropic API响应格式异常" := by
  refine ⟨rfl, by decide⟩

/-- C6 (amended): the structured-turn adapter reads the first content block of
the reply; it raises "Anthropic API响应格式异常" only when the reply carries
no content blocks at all, returns the text of a first "text"-variant block,
and returns the string rendering of any other first block instead of
failing. -/
theorem C6_first_block_handling (bs : List AnthropicBlock) (t r : String) :
    call_anthropic ⟨[]⟩ = .error "Anthropic API响应格式异常" ∧
    call_anthropic ⟨AnthropicBlock.text t :: bs⟩ = .ok t ∧
    call_anthropic ⟨AnthropicBlock.other r :: bs⟩ = .ok r :=
  ⟨rfl, rfl, rfl⟩

/-! ## Claim C9 -/

/-- C9 (counterexample): `cancel_task` on an id absent from the task map does
return a structured result without raising, but that result is tagged
`status = "error"` — not the distinct "not_found" tag that `get_task_status`
uses for the same condition — so the claim's "not-found result (not an
error)" is false as stated. -/
theorem C9_counterexample_error_tag :
    (cancel_task readyState "missing").2 = ⟨"error", "任务不存在"⟩ ∧
    ¬ (cancel_task readyState "missing").2.status = "not_found" ∧
    get_task_status readyState "missing" = .sentinel "not_found" "任务不存在" := by
  refine ⟨rfl, by decide, rfl⟩

/-- C9 (amended): for every id absent from the task map, `cancel_task`
returns the structured dict `{"status": "error", "message": "任务不存在"}`
with the state untouched, and never raises (the function is total: the absent
branch returns directly and the present branch only performs a
failure-swallowing notification). -/
theorem C9_cancel_absent (s : AgentState) (id : String)
    (h : s.tasks.any (fun kv => kv.1 == id) = false) :
    cancel_task s id = (s, ⟨"error", "任务不存在"⟩) := by
  simp [cancel_task, h]

/-- Witness for `C9_cancel_absent` at a concrete absent id. -/
theorem C9_cancel_absent_witness :
    cancel_task initialAgentState "t9" = (initialAgentState, ⟨"error", "任务不存在"⟩) :=
  C9_cancel_absent initialAgentState "t9" (by decide)

/-! ## Claim C1 -/

/-- C1 (counterexample): status transitions are not monotonic — running the
chart task "t1" to completion leaves its record at "completed", and a
subsequent `cancel_task` moves that same record to "cancelled". -/
theorem C1_counterexample_cancel_after_completed :
    statusOf c1State1 "t1" = some "completed" ∧
    statusOf (cancel_task c1State1 "t1").1 "t1" = some "cancelled" := by
  refine ⟨by decide, by decide⟩

/-- C1 (amended): nothing guards terminal statuses.  For any present task id
— whatever its current status, including "completed"/"failed"/"cancelled" —
`cancel_task` sets the stored status to "cancelled", and a new
`process_task` for the same id resets the record and leaves it at
"completed" or "failed" according to the new execution's outcome.
Monotonicity holds only in the absence of cancels and re-submissions
targeting an already-settled task. -/
theorem C1_terminal_status_overwritten (s : AgentState) (o : ExtCallOutcomes)
    (id : String) (td : TaskData)
    (h : (s.tasks.find? (fun kv => kv.1 == id)).isSome = true) :
    statusOf (cancel_task s id).1 id = some "cancelled" ∧
    (statusOf (process_task s o id td).1 id = some "completed" ∨
     statusOf (process_task s o id td).1 id = some "failed") := by
  constructor
  · have hany : s.tasks.any (fun kv => kv.1 == id) = true := by
      rw [any_beq_eq_find_isSome]; exact h
    obtain ⟨kv, hkv⟩ := Option.isSome_iff_exists.mp h
    simp [cancel_task, hany, statusOf, find_updateTask_self, hkv]
  · simp only [process_task]
    split
    · left
      simp [statusOf, find_updateTask_self, find_dsetTask_self]
    · right
      simp [statusOf, find_updateTask_self, find_dsetTask_self]

/-- Witness for `C1_terminal_status_overwritten` at the state holding the
completed task "t1". -/
theorem C1_terminal_status_overwritten_witness :
    statusOf (cancel_task c1State1 "t1").1 "t1" = some "cancelled" ∧
    (statusOf (process_task c1State1 chartOutcomes "t1" chartTask).1 "t1" = some "completed" ∨
     statusOf (process_task c1State1 chartOutcomes "t1" chartTask).1 "t1" = some "failed") :=
  C1_terminal_status_overwritten c1State1 chartOutcomes "t1" chartTask (by decide)

/-! ## Claim C10 -/

/-- C10 (counterexample): the claim's "in particular, a Cancelled task has
neither result nor error set" fails — cancelling the already-completed task
"t1" leaves its status at "cancelled" while its `result` field still holds
the chart result produced earlier. -/
theorem C10_counterexample_cancelled_retains_result :
    statusOf (cancel_task c1State1 "t1").1 "t1" = some "cancelled" ∧
    resultOf (cancel_task c1State1 "t1").1 "t1" =
      some (some (.chartResult ⟨"success", "sales data", "bar", "Q", "quarterly sales"⟩)) := by
  refine ⟨by decide, by decide⟩

/-- C10 (amended): `cancel_task` on a present id mutates only that record's
status field (to "cancelled"), leaving its `data`, `result` and `error`
fields and every other task's record unchanged; consequently a task whose
record held no result and no error when cancelled — e.g. one still running —
has neither set afterwards, while a task cancelled after settling keeps its
old `result`/`error`. -/
theorem C10_cancel_frame (s : AgentState) (id : String) (rec : TaskRecord)
    (h : s.tasks.find? (fun kv => kv.1 == id) = some (id, rec)) :
    (cancel_task s id).1.tasks.find? (fun kv => kv.1 == id) =
        some (id, { rec with status := "cancelled" }) ∧
    (∀ j, (j == id) = false →
      (cancel_task s id).1.tasks.find? (fun kv => kv.1 == j) =
        s.tasks.find? (fun kv => kv.1 == j)) ∧
    (rec.result = none → rec.error = none →
      resultOf (cancel_task s id).1 id = some none ∧
      errorOf (cancel_task s id).1 id = some none) := by
  have hany : s.tasks.any (fun kv => kv.1 == id) = true := by
    rw [any_beq_eq_find_isSome, h]; rfl
  refine ⟨?_, ?_, ?_⟩
  · simp [cancel_task, hany, find_updateTask_self, h]
  · intro j hj
    simp [cancel_task, hany, find_updateTask_other _ _ _ _ hj]
  · intro hr he
    simp [cancel_task, hany, resultOf, errorOf, find_updateTask_self, h, hr, he]

/-- Witness for `C10_cancel_frame`: cancelling a freshly running record. -/
theorem C10_cancel_frame_witness :
    (cancel_task { readyState with
        tasks := [("t3", ⟨"running", chartTask, none, none⟩)] } "t3").1.tasks.find?
        (fun kv => kv.1 == "t3") =
      some ("t3", ⟨"cancelled", chartTask, none, none⟩) :=
  (C10_cancel_frame { readyState with tasks := [("t3", ⟨"running", chartTask, none, none⟩)] }
    "t3" ⟨"running", chartTask, none, none⟩ (by decide)).1

/-! ## Claim C2 -/

/-- C2 (counterexample): a non-2xx reply does not trigger the local fallback.
With a local config that would yield an active anthropic provider, a 500
reply from the remote config endpoint leaves the state exactly as it was
(here: no provider at all) and returns `None`, whereas the fallback would
have activated "anthropic". -/
theorem C2_counterexample_non2xx_no_fallback :
    load_llm_config bothLibs localA (.response 500 {}) initialAgentState =
      (initialAgentState, none) ∧
    (load_llm_config bothLibs localA (.response 500 {}) initialAgentState).1.current_provider =
      none ∧
    (fallback_to_local_config bothLibs localA initialAgentState).1.current_provider =
      some "anthropic" := by
  refine ⟨by decide, by decide, by decide⟩

/-- C2 (amended): a raised network error or timeout (`RequestException`)
makes the load fall back to the local configuration, which always succeeds;
a 200 reply is processed and the load returns `True`; but a reply with any
other status code matches neither branch — the load returns `None` without
raising and without falling back, leaving the configuration state exactly as
it was (usable, possibly with no provider).  In no case does the load
propagate a failure: the function is total. -/
theorem C2_load_recovery (env : LibEnv) (ls : LocalSettings) (s : AgentState) :
    (∀ msg, load_llm_config env ls (.requestError msg) s = fallback_to_local_config env ls s) ∧
    (fallback_to_local_config env ls s).2 = some true ∧
    (∀ body, (load_llm_config env ls (.response 200 body) s).2 = some true) ∧
    (∀ code body, code ≠ 200 → load_llm_config env ls (.response code body) s = (s, none)) := by
  refine ⟨fun msg => rfl, rfl, fun body => by simp [load_llm_config],
    fun code body hc => by simp [load_llm_config, hc]⟩

/-- Witness for `C2_load_recovery`: a 404 reply leaves the initial state
untouched. -/
theorem C2_load_recovery_witness :
    load_llm_config bothLibs localA (.response 404 {}) initialAgentState =
      (initialAgentState, none) :=
  (C2_load_recovery bothLibs localA initialAgentState).2.2.2 404 {} (by decide)

/-! ## Claim C5 -/

/-- C5: active-provider selection after a load.  If the declared default
provider is among the loaded providers and has a constructed client, it
becomes the active provider together with its config; otherwise the first
client key (in client-construction order) that belongs to the loaded
provider set becomes active, the previous selection surviving only when no
client qualifies.  In particular, loading a config whose default provider
(anthropic) gets no client — its SDK failed to import — while the second
provider (gemini) does, ends with gemini active. -/
theorem C5_provider_selection :
    (∀ (dp : String) (providers : List (String × ProviderConfig)) (clients : List String)
       (cur : Option String) (cfg : Option ProviderConfig),
       (providers.lookup dp).isSome = true → clients.contains dp = true →
       selectProvider dp providers clients cur cfg = (some dp, providers.lookup dp)) ∧
    (∀ (dp : String) (providers : List (String × ProviderConfig)) (clients : List String)
       (cur : Option String) (cfg : Option ProviderConfig),
       ((providers.lookup dp).isSome && clients.contains dp) = false →
       selectProvider dp providers clients cur cfg =
         (match clients.find? (fun c => (providers.lookup c).isSome) with
          | some p => (some p, providers.lookup p)
          | none => (cur, cfg))) ∧
    (load_llm_config geminiOnlyEnv localA (.response 200 c5Body) initialAgentState).1.current_provider =
      some "gemini" := by
  refine ⟨?_, ?_, by decide⟩
  · intro dp providers clients cur cfg h1 h2
    have hc : ((providers.lookup dp).isSome && clients.contains dp) = true := by
      rw [h1, h2]; rfl
    simp only [selectProvider, if_pos hc]
  · intro dp providers clients cur cfg h
    have hn : ¬ ((providers.lookup dp).isSome && clients.contains dp) = true := by
      rw [h]; exact Bool.false_ne_true
    simp only [selectProvider, if_neg hn]

/-- Witness for `C5_provider_selection`: the default provider is selected
when configured and constructed. -/
theorem C5_provider_selection_witness :
    selectProvider "anthropic" [("anthropic", { api_key := "k", model := "claude-3-sonnet" })]
      ["anthropic"] none none =
      (some "anthropic", some { api_key := "k", model := "claude-3-sonnet" }) :=
  C5_provider_selection.1 "anthropic"
    [("anthropic", { api_key := "k", model := "claude-3-sonnet" })]
    ["anthropic"] none none (by decide) (by decide)

/-! ## Claim C8 -/

/-- C8: the claim (exactly one of `result`/`error` once a task is Completed
or Failed) is the documented invariant, but the code violates it: in
`_handle_latex_project` both UCAS-style sub-branches assign the compile
service's reply without ever executing a `return`, so the method returns
`None`; `process_task` then records status "completed" with `result = None`
and `error = None` — a completed task with neither field set.  This theorem
evaluates the embedded code at that failing input (task "t2": a
`latex_project` PPT task with `use_ucas_style` true and every external call
succeeding). -/
theorem C8_completed_without_result :
    statusOf c8State "t2" = some "completed" ∧
    resultOf c8State "t2" = some none ∧
    errorOf c8State "t2" = some none := by
  refine ⟨by decide, by decide, by decide⟩

/-! ## Claim C4 -/

/-- C4 (counterexample): rule (c) of the claim says the JSON structural match
is "the first balanced \x7b...\x7d span", but the code's greedy
`re.search(r'\{.*\}', ...)` spans from the first '\x7b' to the last '\x7d':
on "a \x7b1\x7d b \x7b2\x7d" (no fences) extraction returns
"\x7b1\x7d b \x7b2\x7d", not the first balanced span "\x7b1\x7d". -/
theorem C4_counterexample_brace_span_not_balanced :
    extract_json_data "a \x7b1\x7d b \x7b2\x7d".data = "\x7b1\x7d b \x7b2\x7d".data ∧
    specFirstBalancedBraceSpan "a \x7b1\x7d b \x7b2\x7d".data = some "\x7b1\x7d".data ∧
    ¬ extract_json_data "a \x7b1\x7d b \x7b2\x7d".data = "\x7b1\x7d".data := by
  refine ⟨by decide, by decide, by decide⟩

/-- C4 (amended): extraction applies its rules in order and returns the
content of the first rule that matches — (a) a fenced block tagged with the
expected content type (json or latex), (b) any fenced block, (c) a
structural match, which for JSON is the span from the first '\x7b' to the
last '\x7d' (greedy, not necessarily balanced) and for LaTeX is the
substring beginning at `\documentclass`; if no rule matches, the trimmed
original text is returned unchanged (in particular, with no fence delimiter
present at all, rules (a) and (b) cannot match). -/
theorem C4_extraction_rule_order (r : List Char) :
    (∀ g, searchJsonFence r = some g → extract_json_data r = g) ∧
    (searchJsonFence r = none → ∀ g, searchAnyFence r = some g → extract_json_data r = g) ∧
    (searchJsonFence r = none → searchAnyFence r = none →
       ∀ g, searchBraceSpan r = some g → extract_json_data r = g) ∧
    (findSub "```".data r = none → searchBraceSpan r = none →
       extract_json_data r = pyStrip r) ∧
    (∀ g, searchLatexFence r = some g → extract_latex_code r = g) ∧
    (searchLatexFence r = none → ∀ g, searchAnyFence r = some g → extract_latex_code r = g) ∧
    (searchLatexFence r = none → searchAnyFence r = none →
       ∀ g, searchDocumentclass r = some g → extract_latex_code r = g) ∧
    (findSub "```".data r = none → searchDocumentclass r = none →
       extract_latex_code r = pyStrip r) := by
  refine ⟨?_, ?_, ?_, ?_, ?_, ?_, ?_, ?_⟩
  · intro g hg; simp [extract_json_data, hg]
  · intro h1 g hg; simp [extract_json_data, h1, hg]
  · intro h1 h2 g hg; simp [extract_json_data, h1, h2, hg]
  · intro hf hb
    have hjson : searchJsonFence r = none := by
      have hsub : findSub "```json".data r = none := by
        have hd : "```json".data = "```".data ++ "json".data := by decide
        rw [hd]; exact findSub_append_none _ _ _ hf
      simp [searchJsonFence, hsub]
    have hany : searchAnyFence r = none := by
      simp [searchAnyFence, hf]
    simp [extract_json_data, hjson, hany, hb]
  · intro g hg; simp [extract_latex_code, hg]
  · intro h1 g hg; simp [extract_latex_code, h1, hg]
  · intro h1 h2 g hg; simp [extract_latex_code, h1, h2, hg]
  · intro hf hd
    have hlatex : searchLatexFence r = none := by
      have hsub : findSub "```latex".data r = none := by
        have hdd : "```latex".data = "```".data ++ "latex".data := by decide
        rw [hdd]; exact findSub_append_none _ _ _ hf
      simp [searchLatexFence, hsub]
    have hany : searchAnyFence r = none := by
      simp [searchAnyFence, hf]
    simp [extract_latex_code, hlatex, hany, hd]

/-- Witness for `C4_extraction_rule_order` on a fence-free, brace-free,
marker-free response: both extractors return the trimmed original. -/
theorem C4_extraction_rule_order_witness :
    extract_json_data "  plain  ".data = pyStrip "  plain  ".data ∧
    extract_latex_code "  plain  ".data = pyStrip "  plain  ".data :=
  ⟨(C4_extraction_rule_order "  plain  ".data).2.2.2.1 (by decide) (by decide),
   (C4_extraction_rule_order "  plain  ".data).2.2.2.2.2.2.2 (by decide) (by decide)⟩

/-! ## Claim C7 -/

/-- C7 (counterexample): the claim says every document-generation flow turns
a compiler failure after successful markup generation into a success result
carrying the markup plus a recorded compilation error — but the
LaTeX-project flow propagates the compile failure as a hard error and
discards the generated Beamer markup. -/
theorem C7_counterexample_project_flow_fails :
    generate_ppt_with_llm readyState (projectFailOutcomes "无法连接到PPT生成器服务: conn")
        latexProjParams =
      .error "处理LaTeX项目失败: 无法连接到PPT生成器服务: conn" := by
  rfl

/-- C7 (amended): only the free-text document-generation flow treats a
compiler failure after successful markup generation as partial success — it
returns a success dict whose `latex_content` is the extracted markup and
whose `pdf_compilation_error` records the failure.  The archive-based
LaTeX-project flow instead wraps the compile failure in
"处理LaTeX项目失败: ..." and fails the task, discarding the markup. -/
theorem C7_compile_failure_partial_success :
    (∀ (s : AgentState) (o : ExtCallOutcomes) (p : TaskParams) (resp e : String),
       ((p.input_type.getD "text_description") == "latex_project") = false →
       providerReady s = true →
       call_llm s o.llm = .ok resp →
       call_ppt_service s o = .error e →
       generate_ppt_with_llm s o p = .ok (some (.pptResult
         { status := "success",
           latex_content := String.mk (extract_latex_code (pyStrip resp.data)),
           title := p.title.getD "演示文稿", theme := p.theme.getD "academic",
           input_type := p.input_type.getD "text_description",
           pdf_compilation_error := some e }))) ∧
    (∀ e, handle_latex_project readyState (projectFailOutcomes e) latexProjParams =
       .error ("处理LaTeX项目失败: " ++ e)) := by
  constructor
  · intro s o p resp e hin hready hllm hppt
    simp [generate_ppt_with_llm, hin, hready, hllm, hppt]
  · intro e
    rfl

/-- Witness for `C7_compile_failure_partial_success`: a concrete free-text
PPT task whose compile call fails still succeeds with the generated LaTeX
and a recorded compilation error. -/
theorem C7_compile_failure_partial_success_witness :
    generate_ppt_with_llm readyState compileFailOutcomes { content := some "c" } =
      .ok (some (.pptResult
        { status := "success", latex_content := "BODY", title := "演示文稿",
          theme := "academic", input_type := "text_description",
          pdf_compilation_error := some "无法连接到PPT生成器服务: conn" })) := by
  have h := C7_compile_failure_partial_success.1 readyState compileFailOutcomes
    { content := some "c" } "```latex\nBODY\n```" "无法连接到PPT生成器服务: conn"
    (by decide) (by decide) (by decide) (by decide)
  exact h

end AgentUI
